import Mathlib

/-!
Verification of `uplink/models.py`: the model-converter registration and
matching mechanism (`_ModelConverterBuilder` and the `load` / `dump`
registration facades).

The embedding mirrors the Python source shallowly:

* a Python class is a `PyClass`: a name together with the names of its
  proper ancestors (its method-resolution order minus itself), so that
  subclass testing is structural membership;
* a marker / annotation value (`Ann`) is either a marker class or a marker
  instance of some class; `typeOf` is Python's `type(-)`;
* the builder state is a structure with the three fields the source
  assigns in `__init__` and `using`; Python's `None` function slot is an
  `Option`;
* `functools.partial(self._func, type_)` is a `BoundConverter` value that
  captures the function slot and the encountered type;
* the external converter-factory registry is passed explicitly as a list.
-/

namespace Uplink

/-- A Python class, identified by its name, carrying the names of its proper
ancestors (every strict superclass). `issubclass` is then structural. -/
structure PyClass where
  name : String
  ancestors : List String
  deriving DecidableEq, Repr

/-- An annotation value as the source sees it: either a marker class itself
(what well-behaved callers pass as required annotations, e.g.
`decorators.returns.json`) or a marker instance of some class (what the call
site supplies at query time). -/
inductive Ann where
  | typ (c : PyClass)
  | inst (c : PyClass) (id : Nat)
  deriving DecidableEq, Repr

/-- The Python metaclass `type`: `type(SomeClass)` is `type`. -/
def type_meta : PyClass := ⟨"type", []⟩

/-- Python's `type(-)` on an annotation value: the class of an instance, and
the metaclass `type` for a class. -/
def typeOf : Ann → Ann
  | .inst c _ => .typ c
  | .typ _ => .typ type_meta

/-- Source line 9: `_get_classes = functools.partial(map, type)` — map each
annotation value to its class. -/
def get_classes (l : List Ann) : List Ann := l.map typeOf

/-- Modelled from the spec: `utils.is_subclass` is not under `src/`; the spec
requires that the encountered type "must be identical to or a subclass of
`baseType`", a structural test on the type hierarchy. With `PyClass` carrying
its proper ancestors, that is name identity or ancestor membership. -/
def is_subclass (t base : PyClass) : Bool :=
  t.name == base.name || t.ancestors.contains base.name

/-- The state of a `_ModelConverterBuilder` (source lines 12–21): the base
model class, the stored annotations (`set(annotations)`, kept here as a list
with set semantics at every use site), and the conversion-function slot,
`None` until `using` attaches one.  `π` is the payload type and `ρ` the
converted-value type of the user function. -/
structure ModelConverterBuilder (π ρ : Type) where
  model_class : PyClass
  annotations : List Ann
  func : Option (PyClass → π → ρ)

variable {π ρ : Type}

/-- Source lines 14–21, `_ModelConverterBuilder.__init__`: store the base
class and the annotation set; the function slot starts out empty. No
validation of any argument is performed (the body is three assignments). -/
def init (base : PyClass) (anns : List Ann) : ModelConverterBuilder π ρ :=
  { model_class := base, annotations := anns, func := none }

/-- Source lines 23–28, `using` (also bound as `__call__`): set the function
slot, register the builder with the (external) default converter-factory
registry, and hand the original function back. The registry, external to
`src/`, is modelled from the spec as an explicit collection of registered
builders; registration adds this builder to it. The result triple is
(returned function, builder state after the call, registry after the call). -/
def using' (b : ModelConverterBuilder π ρ) (f : PyClass → π → ρ)
    (reg : List (ModelConverterBuilder π ρ)) :
    (PyClass → π → ρ) × ModelConverterBuilder π ρ × List (ModelConverterBuilder π ρ) :=
  let b' := { b with func := some f }
  (f, b', b' :: reg)

/-- Source lines 30–33, `_contains_annotations`: collect the classes of the
argument-level and method-level annotation values into one set and test that
it is a superset of the stored annotations. Superset of sets is elementwise
membership, which is what the list embedding tests. -/
def contains_annotations (b : ModelConverterBuilder π ρ)
    (argument_annotations method_annotations : List Ann) : Bool :=
  let types := get_classes argument_annotations ++ get_classes method_annotations
  b.annotations.all (fun a => decide (a ∈ types))

/-- Source lines 35–39, `_is_relevant`: the encountered type is the base
class or a subclass of it, and the supplied annotations suffice. -/
def is_relevant (b : ModelConverterBuilder π ρ) (type_ : PyClass)
    (argument_annotations method_annotations : List Ann) : Bool :=
  is_subclass type_ b.model_class &&
    contains_annotations b argument_annotations method_annotations

/-- The value `functools.partial(self._func, type_)`: it captures the
function slot and the encountered type at bind time. -/
structure BoundConverter (π ρ : Type) where
  fn : Option (PyClass → π → ρ)
  bound_type : PyClass

/-- Calling the bound converter on a payload: apply the captured function to
the captured type and the payload. Calling with an empty function slot is a
runtime error in Python (`None` is not callable), hence `Option`. -/
def BoundConverter.call (c : BoundConverter π ρ) (p : π) : Option ρ :=
  match c.fn with
  | some f => some (f c.bound_type p)
  | none => none

/-- Source lines 41–43, `_marshall`: if the builder is relevant to the query,
return `functools.partial(self._func, type_)`; otherwise fall through and
return `None`. -/
def marshall (b : ModelConverterBuilder π ρ) (type_ : PyClass)
    (argument_annotations method_annotations : List Ann) :
    Option (BoundConverter π ρ) :=
  if is_relevant b type_ argument_annotations method_annotations then
    some ⟨b.func, type_⟩
  else
    none

/-- The `_marshall` method seen as a state transformer on the builder: the
source body (lines 30–43, including `_is_relevant` and
`_contains_annotations`) contains no assignment to `self`, so the post-state
is the pre-state. -/
def marshallS (b : ModelConverterBuilder π ρ) (type_ : PyClass)
    (argument_annotations method_annotations : List Ann) :
    Option (BoundConverter π ρ) × ModelConverterBuilder π ρ :=
  (marshall b type_ argument_annotations method_annotations, b)

/-- The two directions a converter factory can be queried for by the
pipeline: building a request body or converting a response body. -/
inductive Direction where
  | request
  | response
  deriving DecidableEq, Repr

/-- Source lines 65–66, `load.make_response_body_converter`: delegate to
`_marshall`. -/
def load_make_response_body_converter (b : ModelConverterBuilder π ρ)
    (type_ : PyClass) (argument_annotations method_annotations : List Ann) :
    Option (BoundConverter π ρ) :=
  marshall b type_ argument_annotations method_annotations

/-- Source lines 119–120, `dump.make_request_body_converter`: delegate to
`_marshall`. -/
def dump_make_request_body_converter (b : ModelConverterBuilder π ρ)
    (type_ : PyClass) (argument_annotations method_annotations : List Ann) :
    Option (BoundConverter π ρ) :=
  marshall b type_ argument_annotations method_annotations

/-- A `load` builder, queried as a converter factory. The response direction
is source lines 65–66. Modelled from the spec for the request direction:
`load` does not override the request-body query, and a deserialization
strategy supplies no converter there (the `ConverterFactory` base class is
external to `src/`). -/
def load_factory (b : ModelConverterBuilder π ρ) :
    Direction → PyClass → List Ann → List Ann → Option (BoundConverter π ρ)
  | .response, t, a, m => load_make_response_body_converter b t a m
  | .request, _, _, _ => none

/-- A `dump` builder, queried as a converter factory. The request direction
is source lines 119–120. Modelled from the spec for the response direction:
`dump` does not override the response-body query, and a serialization
strategy supplies no converter there (the `ConverterFactory` base class is
external to `src/`). -/
def dump_factory (b : ModelConverterBuilder π ρ) :
    Direction → PyClass → List Ann → List Ann → Option (BoundConverter π ρ)
  | .request, t, a, m => dump_make_request_body_converter b t a m
  | .response, _, _, _ => none

/-- Modelled from the spec: `decorators.returns.json`, the well-known
structured-JSON marker class for responses, is external to `src/`; only its
identity matters. -/
def returns_json : PyClass := ⟨"uplink.returns.json", []⟩

/-- Modelled from the spec: `decorators.json`, the well-known structured-JSON
marker class for requests, is external to `src/`; only its identity
matters. -/
def decorators_json : PyClass := ⟨"uplink.decorators.json", []⟩

/-- Source line 69: `load.from_json = functools.partial(load,
annotations=(decorators.returns.json,))` — the primary constructor with the
JSON response marker class pre-supplied. -/
def load_from_json (base : PyClass) : ModelConverterBuilder π ρ :=
  init base [Ann.typ returns_json]

/-- Source line 123: `dump.to_json = functools.partial(dump,
annotations=(decorators.json,))` — the primary constructor with the JSON
request marker class pre-supplied. -/
def dump_to_json (base : PyClass) : ModelConverterBuilder π ρ :=
  init base [Ann.typ decorators_json]

/-- A Python value at the `__init__` boundary: a class, or a plain instance
of some class. Used to state what `__init__` does when handed a value that
is not a type. -/
inductive PyVal where
  | cls (c : PyClass)
  | obj (className : String) (id : Nat)
  deriving DecidableEq, Repr

/-- The builder state as `__init__` alone produces it, before any function is
attached, with the base slot holding an arbitrary Python value. -/
structure BuilderV where
  model_class : PyVal
  annotations : List Ann
  deriving DecidableEq, Repr

/-- Source lines 14–21, `__init__`, with an explicit error channel so that a
raise would be visible: the body is plain assignments and contains no
validation and no raise, so every input is accepted. -/
def initV (base : PyVal) (anns : List Ann) : Except String BuilderV :=
  Except.ok { model_class := base, annotations := anns }

/- Concrete fixtures used by witnesses and counterexamples. -/

/-- A base model class for concrete tests. -/
def animal : PyClass := ⟨"Animal", []⟩

/-- A subclass of `animal`. -/
def dog : PyClass := ⟨"Dog", ["Animal"]⟩

/-- A class unrelated to `animal`'s hierarchy. -/
def plant : PyClass := ⟨"Plant", []⟩

/-- A marker class for concrete tests. -/
def json_marker : PyClass := ⟨"JsonMarker", []⟩

/-- A concrete conversion function for tests. -/
def test_func : PyClass → Nat → Nat := fun _ p => p + 1

/-- A builder registered for `animal` with no required annotations and
`test_func` attached. -/
def b_animal : ModelConverterBuilder Nat Nat :=
  { model_class := animal, annotations := [], func := some test_func }

/-- A builder whose required annotations hold a marker *instance* (not the
marker's class), as `__init__` stores whatever it is handed. -/
def b_inst_req : ModelConverterBuilder Nat Nat :=
  { model_class := animal, annotations := [Ann.inst json_marker 0],
    func := some test_func }

/-- C1: `_marshall` returns a converter exactly when the encountered type is
the base class or a subclass of it and the classes of the supplied markers
form a superset of the stored annotations; a non-subclass type never matches
regardless of markers, and empty stored annotations satisfy the marker check
unconditionally. -/
theorem marshall_superset_law (b : ModelConverterBuilder π ρ) (t : PyClass)
    (a m : List Ann) :
    ((marshall b t a m).isSome
        = (is_subclass t b.model_class && contains_annotations b a m))
    ∧ (contains_annotations b a m = true ↔
        ∀ x ∈ b.annotations, x ∈ get_classes a ++ get_classes m)
    ∧ (is_subclass t b.model_class = false → marshall b t a m = none)
    ∧ (b.annotations = [] → contains_annotations b a m = true) := by
  refine ⟨?_, ?_, ?_, ?_⟩
  · by_cases h : is_relevant b t a m
    · simp only [marshall, h, if_true, Option.isSome_some]
      exact (h.symm : _)
    · simp only [marshall, h, if_false, Option.isSome_none]
      exact ((Bool.not_eq_true _).mp h).symm
  · simp [contains_annotations, List.all_eq_true]
  · intro h
    simp [marshall, is_relevant, h]
  · intro h
    simp [contains_annotations, h]

/-- C1 witness: the `animal`-scoped builder does not match the unrelated type
`plant`, and its empty required set makes the marker check hold. -/
theorem marshall_superset_law_witness :
    marshall b_animal plant [] [] = none
    ∧ contains_annotations b_animal [] [] = true :=
  ⟨(marshall_superset_law b_animal plant [] []).2.2.1 (by decide),
   (marshall_superset_law b_animal plant [] []).2.2.2 rfl⟩

/-- C2: when `_marshall` succeeds, the returned converter applied to any
payload computes exactly the attached conversion function at the encountered
type and that payload (both captured at bind time). -/
theorem marshall_binds_func (b : ModelConverterBuilder π ρ)
    (f : PyClass → π → ρ) (t : PyClass) (a m : List Ann)
    (c : BoundConverter π ρ) (p : π)
    (hf : b.func = some f) (hm : marshall b t a m = some c) :
    c.call p = some (f t p) := by
  unfold marshall at hm
  split at hm
  · cases hm
    simp [BoundConverter.call, hf]
  · exact absurd hm (by simp)

/-- C2 witness: binding the `animal` builder at the subclass `dog` and
calling the converter on payload `5` computes `test_func dog 5`. -/
theorem marshall_binds_func_witness :
    BoundConverter.call ⟨some test_func, dog⟩ 5 = some (test_func dog 5) :=
  marshall_binds_func b_animal test_func dog [] [] ⟨some test_func, dog⟩ 5
    rfl rfl

/-- C3: `_marshall` signals a mismatch by returning the distinguished
non-value `None` — and only then; the operation is total, so no error is
raised on either failing check. -/
theorem marshall_none_iff_not_relevant (b : ModelConverterBuilder π ρ)
    (t : PyClass) (a m : List Ann) :
    marshall b t a m = none ↔ is_relevant b t a m = false := by
  by_cases h : is_relevant b t a m <;> simp [marshall, h]

/-- C4: the structured-JSON presets are sugar: the builder from
`load.from_json` (resp. `dump.to_json`) applied to a base class and a
function behaves identically under `_marshall` to the builder from the
primary facade with the JSON marker class pre-supplied and the same
function. -/
theorem preset_equiv_primary (base : PyClass) (f : PyClass → π → ρ)
    (reg : List (ModelConverterBuilder π ρ)) (t : PyClass) (a m : List Ann) :
    (marshall (using' (load_from_json base) f reg).2.1 t a m
      = marshall (using' (init base [Ann.typ returns_json]) f reg).2.1 t a m)
    ∧ (marshall (using' (dump_to_json base) f reg).2.1 t a m
      = marshall (using' (init base [Ann.typ decorators_json]) f reg).2.1 t a m) :=
  ⟨rfl, rfl⟩

/-- C5 counterexample: `__init__` stores the annotation arguments themselves,
not their types. Passing the marker *instance* `Ann.inst json_marker 0` at
registration leaves the instance, not the class `json_marker`, in the stored
set; consequently a query supplying a marker instance of that very class
fails the superset check and `_marshall` returns no converter, where the
claim predicts a match. -/
theorem init_keeps_instances_cex :
    (Ann.typ json_marker
        ∉ (init animal [Ann.inst json_marker 0] : ModelConverterBuilder Nat Nat).annotations)
    ∧ (Ann.inst json_marker 0
        ∈ (init animal [Ann.inst json_marker 0] : ModelConverterBuilder Nat Nat).annotations)
    ∧ marshall b_inst_req animal [] [Ann.inst json_marker 1] = none :=
  ⟨by decide, by decide, rfl⟩

/-- C5 amended: the stored annotation set is exactly the collection of
arguments as passed (no conversion of instances to their types happens at
construction), and it is that stored set which the combined supplied-marker-
class set is tested to be a superset of. -/
theorem init_stores_arguments (base : PyClass) (anns : List Ann) :
    ((init base anns : ModelConverterBuilder π ρ).annotations = anns)
    ∧ (∀ a m,
        contains_annotations (init base anns : ModelConverterBuilder π ρ) a m
            = true
          ↔ ∀ x ∈ anns, x ∈ get_classes a ++ get_classes m) := by
  refine ⟨rfl, ?_⟩
  intro a m
  simp [contains_annotations, init, List.all_eq_true]

/-- C5 amended witness: with the marker class itself stored, a query
supplying an instance of that class passes the check. -/
theorem init_stores_arguments_witness :
    ((init animal [Ann.typ json_marker] : ModelConverterBuilder Nat Nat).annotations
        = [Ann.typ json_marker])
    ∧ contains_annotations
        (init animal [Ann.typ json_marker] : ModelConverterBuilder Nat Nat)
        [] [Ann.inst json_marker 0] = true :=
  ⟨(init_stores_arguments animal [Ann.typ json_marker]).1,
   ((init_stores_arguments animal [Ann.typ json_marker]).2
      [] [Ann.inst json_marker 0]).2 (by decide)⟩

/-- C6 counterexample: `__init__` accepts a non-type base value without any
configuration error — registration succeeds where the claim requires it to
fail fast. -/
theorem initV_nontype_accepted_cex :
    initV (PyVal.obj "Animal" 0) []
      = Except.ok { model_class := PyVal.obj "Animal" 0, annotations := [] } :=
  rfl

/-- C6 amended: `__init__` performs no validation of `base_class`; every
value, type or not, is accepted and stored unchanged, and no error is raised
at registration/construction time. -/
theorem initV_never_fails (v : PyVal) (anns : List Ann) :
    initV v anns = Except.ok { model_class := v, annotations := anns } :=
  rfl

/-- C7: `using` attaches the function and only then registers exactly that
builder: the post-registry is the attached builder consed onto the old one,
the attached builder's function slot holds the supplied function, a fresh
builder from `__init__` has an empty slot, and every builder in the
post-registry was either already registered or carries the attached
function. -/
theorem using_registers_after_attach (b : ModelConverterBuilder π ρ)
    (f : PyClass → π → ρ) (reg : List (ModelConverterBuilder π ρ)) :
    ((using' b f reg).2.2 = (using' b f reg).2.1 :: reg)
    ∧ ((using' b f reg).2.1.func = some f)
    ∧ (∀ base anns, (init base anns : ModelConverterBuilder π ρ).func = none)
    ∧ (∀ x, x ∈ (using' b f reg).2.2 → x ∈ reg ∨ x.func = some f) := by
  refine ⟨rfl, rfl, fun _ _ => rfl, ?_⟩
  intro x hx
  simp only [using'] at hx
  rcases List.mem_cons.mp hx with h | h
  · exact Or.inr (by rw [h])
  · exact Or.inl h

/-- C7 witness: the builder just registered through `using` on an empty
registry carries the attached function. -/
theorem using_registers_after_attach_witness :
    ((using' (init animal [] : ModelConverterBuilder Nat Nat) test_func []).2.1
        ∈ ([] : List (ModelConverterBuilder Nat Nat)))
    ∨ (using' (init animal [] : ModelConverterBuilder Nat Nat) test_func
        []).2.1.func = some test_func :=
  (using_registers_after_attach (init animal []) test_func []).2.2.2 _
    (by simp [using'])

/-- C8: the registration function hands back exactly the function it was
given, for the primary facades (any builder) and for both structured-JSON
presets. -/
theorem using_returns_original (b : ModelConverterBuilder π ρ)
    (f : PyClass → π → ρ) (reg : List (ModelConverterBuilder π ρ))
    (base : PyClass) :
    ((using' b f reg).1 = f)
    ∧ ((using' (load_from_json base) f reg).1 = f)
    ∧ ((using' (dump_to_json base) f reg).1 = f) :=
  ⟨rfl, rfl, rfl⟩

/-- C9: `_marshall` (with `_is_relevant` and `_contains_annotations`) has no
side effects: the builder state after the call is the state before it, and
the result is the pure function `marshall` of the inputs and that state. -/
theorem marshall_state_preserving (b : ModelConverterBuilder π ρ)
    (t : PyClass) (a m : List Ann) :
    ((marshallS b t a m).2 = b)
    ∧ ((marshallS b t a m).1 = marshall b t a m) :=
  ⟨rfl, rfl⟩

/-- C10: a `load` builder answers response-body queries with `_marshall` and
request-body queries with no converter; a `dump` builder is symmetric; and
`using` places the builder into the registry, where the pipeline queries it
under the direction the facade serves. -/
theorem facade_direction_dispatch (b : ModelConverterBuilder π ρ)
    (t : PyClass) (a m : List Ann) (f : PyClass → π → ρ)
    (reg : List (ModelConverterBuilder π ρ)) :
    (load_factory b .response t a m = marshall b t a m)
    ∧ (load_factory b .request t a m = none)
    ∧ (dump_factory b .request t a m = marshall b t a m)
    ∧ (dump_factory b .response t a m = none)
    ∧ ((using' b f reg).2.2 = (using' b f reg).2.1 :: reg) :=
  ⟨rfl, rfl, rfl, rfl, rfl⟩

end Uplink
